import Mathlib

/-!
Shallow embedding of the session-addressed HTTP router of `src/index.ts`
(pitcrew-incidents): the session table (`activeSessions`), the request
dispatcher (`handleHttpRequest`), the error helper (`writeJsonError`) and the
shutdown drain loop (`shutdown`, lines 498-502).

External collaborators (the protocol SDK's `StreamableHTTPServerTransport` and
`McpServer`) are represented at their interface boundary by an oracle `Env`
that fixes, for one request, whether `transport.handleRequest` throws, whether
the response had already started streaming when it threw, the value of
`transport.sessionId` after the call, and whether the `close()` calls reject.
All observable effects (session construction, forwarding, close calls) are
recorded in an event list; the per-request `ServerResponse` is a `ResState`.
-/

/-- Opaque identity of one constructed `SessionState` (a `(server, transport)`
pair produced by `createSessionState`). -/
abbrev SessToken := Nat

/-- The `activeSessions` map, `Map<string, SessionState>`, as an
insertion-ordered association list. A JS `Map` never holds two entries with
the same key, so the list operations below implement exactly its semantics on
such lists. -/
abbrev SessionTable := List (String × SessToken)

/-- JS `Map.get`: first entry with the key, if any. -/
def mapGet : SessionTable → String → Option SessToken
  | [], _ => none
  | p :: rest, k => if p.1 = k then some p.2 else mapGet rest k

/-- JS `Map.has`. -/
def mapHas (m : SessionTable) (k : String) : Bool :=
  (mapGet m k).isSome

/-- JS `Map.set`: replace the entry with this key in place, else append. -/
def mapSet : SessionTable → String → SessToken → SessionTable
  | [], k, v => [(k, v)]
  | p :: rest, k, v => if p.1 = k then (k, v) :: rest else p :: mapSet rest k v

/-- JS `Map.delete`: remove the entry with this key (on the duplicate-free
lists a `Map` produces, removing every match removes the one entry). -/
def mapDelete : SessionTable → String → SessionTable
  | [], _ => []
  | p :: rest, k => if p.1 = k then mapDelete rest k else p :: mapDelete rest k

/-- JS truthiness of a `string | undefined` value: `undefined` and the empty
string are falsy. -/
def truthy : Option String → Bool
  | none => false
  | some s => s != ""

/-- The `mcp-session-id` header as Node delivers it: absent, a single string,
or an array of strings. -/
inductive HeaderValue where
  | missing
  | one (s : String)
  | many (ss : List String)
deriving Repr, DecidableEq

/-- Lines 347-353: `getSessionIdHeader` returns `value[0]` when the header is
an array (`undefined` when the array is empty), else the value itself. -/
def getSessionIdHeader : HeaderValue → Option String
  | HeaderValue.missing => none
  | HeaderValue.one s => some s
  | HeaderValue.many ss => ss.head?

/-- JS `String.prototype.includes` for a non-empty needle. -/
def jsIncludes (s sub : String) : Bool :=
  (s.splitOn sub).length != 1

/-- Lines 355-360: `ensureAcceptHeader` rewrites the request's `accept` header
to the default when it is falsy or lacks either required media type. -/
def ensureAcceptHeader (accept : Option String) : Option String :=
  let a := accept.getD ""
  if a == "" || !jsIncludes a "application/json" || !jsIncludes a "text/event-stream" then
    some "application/json, text/event-stream"
  else accept

/-- The JSON-RPC error body built at lines 368-374: `jsonrpc`, `error.code`,
`error.message`, and `id: null` (modelled as `none`). -/
structure JsonRpcErrorBody where
  jsonrpc : String
  code : Int
  message : String
  id : Option String
deriving Repr, DecidableEq

/-- One chunk written to the response: plain text (`res.end("Not found")`),
one JSON-RPC error body, or the response the session's transport streamed. -/
inductive Chunk where
  | text (s : String)
  | json (body : JsonRpcErrorBody)
  | stream (t : SessToken)
deriving Repr, DecidableEq

/-- The per-request `ServerResponse`: whether headers were sent, the status
code (Node default 200), the `content-type` header, and the written chunks. -/
structure ResState where
  headersSent : Bool
  statusCode : Nat
  contentType : Option String
  chunks : List Chunk
deriving Repr, DecidableEq

/-- Lines 362-375: `writeJsonError` is a no-op when headers were already sent;
otherwise it sets the status code and content type and ends the response with
exactly one JSON-RPC error object with a null id. -/
def writeJsonError (res : ResState) (statusCode : Nat) (code : Int) (message : String) : ResState :=
  if res.headersSent then res
  else
    { headersSent := true
      statusCode := statusCode
      contentType := some "application/json"
      chunks := res.chunks ++ [Chunk.json { jsonrpc := "2.0", code := code, message := message, id := none }] }

/-- `res.end(text)` on a response: marks headers sent and appends the text. -/
def endText (res : ResState) (s : String) : ResState :=
  { res with headersSent := true, chunks := res.chunks ++ [Chunk.text s] }

/-- The transport wrote (part of) its own response through `res`. -/
def markStreamed (res : ResState) (t : SessToken) : ResState :=
  { res with headersSent := true, chunks := res.chunks ++ [Chunk.stream t] }

/-- Observable effects of one dispatch or of shutdown: `createSessionState`
(line 414), `transport.handleRequest` returning or throwing (line 422), and
the `transport.close()` / `server.close()` calls with whether they succeeded. -/
inductive Event where
  | createSession (t : SessToken)
  | forwardOk (t : SessToken)
  | forwardErr (t : SessToken)
  | transportClose (t : SessToken) (ok : Bool)
  | serverClose (t : SessToken) (ok : Bool)
deriving Repr, DecidableEq

/-- Oracle fixing the external collaborators' behaviour for one request:
the token `createSessionState` would allocate, whether
`transport.handleRequest` throws, whether the response had already started
streaming when it threw, the value of `transport.sessionId` read at line 424,
and whether this session's `transport.close()` / `server.close()` reject. -/
structure Env where
  newToken : SessToken
  forwardThrows : Bool
  headersSentOnThrow : Bool
  tsidAfter : Option String
  transportCloseThrows : Bool
  serverCloseThrows : Bool
deriving Repr, DecidableEq

/-- Result of one dispatch: the session table after the request, the events
it produced (in order), and the final response state. -/
structure World where
  table : SessionTable
  events : List Event
  res : ResState
deriving Repr, DecidableEq

/-- Lines 438-445, the `catch` block: when the session was created for this
request, close its transport and server with rejections swallowed
(`.catch(() => undefined)`), then attempt the 500 internal-error response. -/
def catchBlock (env : Env) (t : SessToken) (createdForRequest : Bool) (table : SessionTable)
    (evs : List Event) (res : ResState) : World :=
  let evs1 :=
    if createdForRequest then
      evs ++ [Event.transportClose t (!env.transportCloseThrows),
              Event.serverClose t (!env.serverCloseThrows)]
    else evs
  { table := table, events := evs1, res := writeJsonError res 500 (-32603) "Internal server error" }

/-- Lines 434-437: on `DELETE` with a (truthy) session id, delete the entry
and close the session's server; a rejection of that `close()` (not caught
locally) lands in the `catch` block. -/
def finishDelete (env : Env) (table : SessionTable) (method : String) (sessionId : Option String)
    (t : SessToken) (createdForRequest : Bool) (res : ResState) (evs : List Event) : World :=
  if method == "DELETE" && truthy sessionId then
    let table1 := mapDelete table (sessionId.getD "")
    let evs1 := evs ++ [Event.serverClose t (!env.serverCloseThrows)]
    if env.serverCloseThrows then catchBlock env t createdForRequest table1 evs1 res
    else { table := table1, events := evs1, res := res }
  else { table := table, events := evs, res := res }

/-- Lines 421-445, the `try` block run with a resolved session `t`: forward
the request into the transport; on success, register the transport's session
id when it is truthy and not yet in the table (line 425), tear the session
down when it was created for this request and no id was established
(lines 429-432, rejections not caught locally), then handle `DELETE`
(lines 434-437); any throw lands in the `catch` block. -/
def runSession (env : Env) (table : SessionTable) (method : String) (sessionId : Option String)
    (t : SessToken) (createdForRequest : Bool) (res : ResState) (evs : List Event) : World :=
  if env.forwardThrows then
    catchBlock env t createdForRequest table (evs ++ [Event.forwardErr t])
      (if env.headersSentOnThrow then markStreamed res t else res)
  else
    let res1 := markStreamed res t
    let evs1 := evs ++ [Event.forwardOk t]
    let estId := env.tsidAfter
    let table1 :=
      if truthy estId && !mapHas table (estId.getD "") then mapSet table (estId.getD "") t
      else table
    if createdForRequest && !truthy estId then
      let evs2 := evs1 ++ [Event.transportClose t (!env.transportCloseThrows)]
      if env.transportCloseThrows then catchBlock env t createdForRequest table1 evs2 res1
      else
        let evs3 := evs2 ++ [Event.serverClose t (!env.serverCloseThrows)]
        if env.serverCloseThrows then catchBlock env t createdForRequest table1 evs3 res1
        else finishDelete env table1 method sessionId t createdForRequest res1 evs3
    else finishDelete env table1 method sessionId t createdForRequest res1 evs1

/-- The request as `handleHttpRequest` observes it: `req.url`, `req.method`,
and the `mcp-session-id` header. -/
structure HttpRequest where
  url : Option String
  method : Option String
  sessionHeader : HeaderValue
deriving Repr, DecidableEq

/-- Line 392: `(req.url ?? "/").split("?")[0]` — the characters before the
first `?` (computed on the character list so the kernel can evaluate it). -/
def pathOf (url : Option String) : String :=
  ⟨(url.getD "/").data.takeWhile (fun c => c != '?')⟩

/-- JS `String.prototype.toUpperCase` (on the character list so the kernel
can evaluate it). -/
def jsToUpper (s : String) : String :=
  ⟨s.data.map Char.toUpper⟩

/-- Lines 391-446: `handleHttpRequest`. Reject non-`/mcp` paths with a plain
404; with a truthy session id, resolve it in the table (404, code -32001,
when absent); without one, `POST` constructs a fresh session and any other
method is rejected with 400, code -32000; then run the `try`/`catch` body. -/
def handleHttpRequest (env : Env) (table : SessionTable) (req : HttpRequest) (res : ResState) :
    World :=
  let path := pathOf req.url
  if path ≠ "/mcp" then
    { table := table, events := [], res := endText { res with statusCode := 404 } "Not found" }
  else
    let method := jsToUpper (req.method.getD "GET")
    let sessionId := getSessionIdHeader req.sessionHeader
    if truthy sessionId then
      match mapGet table (sessionId.getD "") with
      | none =>
          { table := table, events := [], res := writeJsonError res 404 (-32001) "Session not found" }
      | some t => runSession env table method sessionId t false res []
    else if method == "POST" then
      runSession env table method sessionId env.newToken true res [Event.createSession env.newToken]
    else
      { table := table, events := [],
        res := writeJsonError res 400 (-32000) "Bad Request: Mcp-Session-Id header is required" }

/-- Lines 498-502 of `shutdown`: iterate the session table in insertion order,
deleting each entry and closing its transport and server with rejections
swallowed (`.catch(() => undefined)`). `tFail`/`sFail` say, per session id,
whether the respective `close()` rejects. -/
def shutdownLoop (tFail sFail : String → Bool) : SessionTable → SessionTable × List Event
  | [] => ([], [])
  | (sid, t) :: rest =>
    let next := shutdownLoop tFail sFail (mapDelete rest sid)
    (next.1, Event.transportClose t (!tFail sid) :: Event.serverClose t (!sFail sid) :: next.2)
termination_by m => m.length
decreasing_by
  have h : (mapDelete rest sid).length ≤ rest.length := by
    induction rest with
    | nil => simp [mapDelete]
    | cons p r ih =>
      simp only [mapDelete]
      split
      · exact Nat.le_succ_of_le ih
      · simpa using Nat.succ_le_succ ih
  simpa using Nat.lt_succ_of_le h

/-- Event is a `transport.close()` call on session `t`. -/
def isTransportCloseOf (t : SessToken) : Event → Bool
  | Event.transportClose u _ => u == t
  | _ => false

/-- Event is a `server.close()` call on session `t`. -/
def isServerCloseOf (t : SessToken) : Event → Bool
  | Event.serverClose u _ => u == t
  | _ => false

/-- The session's protocol handler (its `McpServer`) was released: its
`close()` ran successfully. -/
def handlerReleased (t : SessToken) (evs : List Event) : Prop :=
  Event.serverClose t true ∈ evs

/-- The session's transport was released: either its own `close()` ran, or
its server's `close()` did — `createSessionState` connects the server to the
transport, and a connected handler's `close()` closes that transport
(collaborator contract, spec §4.1/§4.3). -/
def transportReleased (t : SessToken) (evs : List Event) : Prop :=
  Event.transportClose t true ∈ evs ∨ Event.serverClose t true ∈ evs

/-! ### Basic facts about the table operations and truthiness -/

theorem mapGet_mapSet (m : SessionTable) (k' : String) (v' : SessToken) (k : String) :
    mapGet (mapSet m k' v') k = if k' = k then some v' else mapGet m k := by
  induction m with
  | nil => simp [mapSet, mapGet]
  | cons p rest ih =>
    simp only [mapSet]
    by_cases h1 : p.1 = k'
    · rw [if_pos h1]
      by_cases h2 : k' = k
      · simp [mapGet, h2]
      · have hp : ¬ p.1 = k := by rw [h1]; exact h2
        simp [mapGet, h2, hp]
    · rw [if_neg h1]
      by_cases h2 : p.1 = k
      · have hk : ¬ k' = k := fun e => h1 (h2.trans (Eq.symm e))
        simp [mapGet, h2, hk]
      · simp [mapGet, h2, ih]

theorem mapGet_mapDelete (m : SessionTable) (k' k : String) :
    mapGet (mapDelete m k') k = if k' = k then none else mapGet m k := by
  induction m with
  | nil => simp [mapDelete, mapGet]
  | cons p rest ih =>
    simp only [mapDelete]
    by_cases h1 : p.1 = k'
    · rw [if_pos h1, ih]
      by_cases h2 : k' = k
      · simp [h2]
      · have hp : ¬ p.1 = k := by rw [h1]; exact h2
        simp [mapGet, h2, hp]
    · rw [if_neg h1]
      by_cases h2 : p.1 = k
      · have hk : ¬ k' = k := fun e => h1 (h2.trans (Eq.symm e))
        simp [mapGet, h2, hk]
      · simp [mapGet, h2, ih]

theorem mapGet_mapDelete_self (m : SessionTable) (k : String) :
    mapGet (mapDelete m k) k = none := by
  simp [mapGet_mapDelete]

theorem truthy_some_of_true {o : Option String} (h : truthy o = true) :
    o = some (o.getD "") ∧ o.getD "" ≠ "" := by
  cases o with
  | none => simp [truthy] at h
  | some s =>
    simp only [truthy, bne_iff_ne, ne_eq, decide_eq_true_eq] at h
    simpa using h

theorem mapGet_none_of_not_mem_keys (m : SessionTable) (k : String)
    (h : k ∉ m.map Prod.fst) : mapGet m k = none := by
  induction m with
  | nil => rfl
  | cons p rest ih =>
    simp only [List.map_cons, List.mem_cons] at h
    push_neg at h
    have hp : ¬ p.1 = k := fun e => h.1 (Eq.symm e)
    simp [mapGet, hp, ih h.2]

theorem mapDelete_of_not_mem_keys (m : SessionTable) (k : String)
    (h : k ∉ m.map Prod.fst) : mapDelete m k = m := by
  induction m with
  | nil => rfl
  | cons p rest ih =>
    simp only [List.map_cons, List.mem_cons] at h
    push_neg at h
    have hp : ¬ p.1 = k := fun e => h.1 (Eq.symm e)
    simp [mapDelete, hp, ih h.2]

/-! ### Claim theorems -/

/-- C10: `writeJsonError` is a no-op whenever the response headers have
already been sent, so a fault occurring after a response has started
streaming never overwrites or appends to the partially written response;
otherwise it writes exactly one JSON-RPC error object with the given status,
code and message and a null id. -/
theorem writeJsonError_guarded (res : ResState) (s : Nat) (c : Int) (m : String) :
    (res.headersSent = true → writeJsonError res s c m = res) ∧
    (res.headersSent = false →
      writeJsonError res s c m =
        { headersSent := true, statusCode := s, contentType := some "application/json",
          chunks := res.chunks ++
            [Chunk.json { jsonrpc := "2.0", code := c, message := m, id := none }] }) := by
  constructor <;> intro h <;> simp [writeJsonError, h]

/-- Witness for C10 at concrete responses: one with headers already sent
(untouched) and one fresh (exactly one error object appended). -/
theorem writeJsonError_guarded_witness :
    ((⟨true, 200, none, [Chunk.stream 1]⟩ : ResState).headersSent = true ∧
      writeJsonError ⟨true, 200, none, [Chunk.stream 1]⟩ 500 (-32603) "Internal server error" =
        ⟨true, 200, none, [Chunk.stream 1]⟩) ∧
    ((⟨false, 200, none, []⟩ : ResState).headersSent = false ∧
      writeJsonError ⟨false, 200, none, []⟩ 404 (-32001) "Session not found" =
        ⟨true, 404, some "application/json",
          [Chunk.json ⟨"2.0", -32001, "Session not found", none⟩]⟩) :=
  ⟨⟨rfl, (writeJsonError_guarded ⟨true, 200, none, [Chunk.stream 1]⟩ 500 (-32603)
      "Internal server error").1 rfl⟩,
   ⟨rfl, by
      have h := (writeJsonError_guarded ⟨false, 200, none, []⟩ 404 (-32001)
        "Session not found").2 rfl
      simpa using h⟩⟩

/-- C9: a request whose URL path (query string ignored) is not exactly
"/mcp" is answered with a plain 404 "Not found"; no session is constructed,
the session table is not mutated, and the outcome does not depend on the
session id header (which the code returns before reading). -/
theorem non_mcp_path_rejected (env : Env) (table : SessionTable) (req : HttpRequest)
    (res : ResState) (h : pathOf req.url ≠ "/mcp") :
    (handleHttpRequest env table req res).table = table ∧
    (handleHttpRequest env table req res).events = [] ∧
    (handleHttpRequest env table req res).res =
      endText { res with statusCode := 404 } "Not found" ∧
    ∀ hv, handleHttpRequest env table { req with sessionHeader := hv } res =
      handleHttpRequest env table req res := by
  refine ⟨?_, ?_, ?_, fun hv => ?_⟩ <;> simp [handleHttpRequest, h]

/-- Witness for C9 at a concrete request for another path against a non-empty table. -/
theorem non_mcp_path_rejected_witness :
    pathOf (some "/other?q=1") ≠ "/mcp" ∧
    (handleHttpRequest ⟨7, false, false, none, false, false⟩ [("abc", 3)]
        ⟨some "/other?q=1", some "POST", HeaderValue.one "abc"⟩ ⟨false, 200, none, []⟩).table =
      [("abc", 3)] ∧
    (handleHttpRequest ⟨7, false, false, none, false, false⟩ [("abc", 3)]
        ⟨some "/other?q=1", some "POST", HeaderValue.one "abc"⟩ ⟨false, 200, none, []⟩).events =
      [] :=
  ⟨by decide,
   (non_mcp_path_rejected ⟨7, false, false, none, false, false⟩ [("abc", 3)]
      ⟨some "/other?q=1", some "POST", HeaderValue.one "abc"⟩ ⟨false, 200, none, []⟩
      (by decide)).1,
   (non_mcp_path_rejected ⟨7, false, false, none, false, false⟩ [("abc", 3)]
      ⟨some "/other?q=1", some "POST", HeaderValue.one "abc"⟩ ⟨false, 200, none, []⟩
      (by decide)).2.1⟩

/-- C5: a /mcp request carrying a session id absent from the table is
rejected with the session-not-found terminal error (HTTP 404, JSON-RPC code
-32001, distinct from the missing-session-id code -32000 and the
internal-error code -32603) with no side effects: no session is constructed
(no events) and the table is not mutated. -/
theorem unknown_session_rejected (env : Env) (table : SessionTable) (req : HttpRequest)
    (res : ResState)
    (hp : pathOf req.url = "/mcp")
    (hh : truthy (getSessionIdHeader req.sessionHeader) = true)
    (hn : mapGet table ((getSessionIdHeader req.sessionHeader).getD "") = none) :
    handleHttpRequest env table req res =
      { table := table, events := [],
        res := writeJsonError res 404 (-32001) "Session not found" } ∧
    (-32001 : Int) ≠ -32000 ∧ (-32001 : Int) ≠ -32603 := by
  refine ⟨?_, by decide, by decide⟩
  simp [handleHttpRequest, hp, hh, hn]

/-- Witness for C5: an unknown id against the empty table. -/
theorem unknown_session_rejected_witness :
    pathOf (some "/mcp") = "/mcp" ∧
    truthy (getSessionIdHeader (HeaderValue.one "xyz")) = true ∧
    mapGet [] ((getSessionIdHeader (HeaderValue.one "xyz")).getD "") = none ∧
    handleHttpRequest ⟨9, false, false, none, false, false⟩ []
        ⟨some "/mcp", some "POST", HeaderValue.one "xyz"⟩ ⟨false, 200, none, []⟩ =
      { table := [], events := [],
        res := writeJsonError ⟨false, 200, none, []⟩ 404 (-32001) "Session not found" } :=
  ⟨by decide, by decide, by decide,
   (unknown_session_rejected ⟨9, false, false, none, false, false⟩ []
      ⟨some "/mcp", some "POST", HeaderValue.one "xyz"⟩ ⟨false, 200, none, []⟩
      (by decide) (by decide) (by decide)).1⟩

/-- C6: a /mcp request with no (truthy) session id whose method is not POST
is rejected with the missing-session-id terminal error (HTTP 400, JSON-RPC
code -32000); no session is constructed (no events) and the table is not
mutated. -/
theorem missing_session_id_rejected (env : Env) (table : SessionTable) (req : HttpRequest)
    (res : ResState)
    (hp : pathOf req.url = "/mcp")
    (hh : truthy (getSessionIdHeader req.sessionHeader) = false)
    (hm : jsToUpper (req.method.getD "GET") ≠ "POST") :
    handleHttpRequest env table req res =
      { table := table, events := [],
        res := writeJsonError res 400 (-32000) "Bad Request: Mcp-Session-Id header is required" } := by
  simp [handleHttpRequest, hp, hh, hm]

/-- Witness for C6: a GET with no session header. -/
theorem missing_session_id_rejected_witness :
    pathOf (some "/mcp") = "/mcp" ∧
    truthy (getSessionIdHeader HeaderValue.missing) = false ∧
    jsToUpper ((some "GET" : Option String).getD "GET") ≠ "POST" ∧
    handleHttpRequest ⟨9, false, false, none, false, false⟩ [("abc", 3)]
        ⟨some "/mcp", some "GET", HeaderValue.missing⟩ ⟨false, 200, none, []⟩ =
      { table := [("abc", 3)], events := [],
        res := writeJsonError ⟨false, 200, none, []⟩ 400 (-32000)
          "Bad Request: Mcp-Session-Id header is required" } :=
  ⟨by decide, by decide, by decide,
   missing_session_id_rejected ⟨9, false, false, none, false, false⟩ [("abc", 3)]
      ⟨some "/mcp", some "GET", HeaderValue.missing⟩ ⟨false, 200, none, []⟩
      (by decide) (by decide) (by decide)⟩

/-! ### How one dispatch can change the table -/

theorem catchBlock_table (env : Env) (t : SessToken) (c : Bool) (table : SessionTable)
    (evs : List Event) (res : ResState) :
    (catchBlock env t c table evs res).table = table := rfl

theorem finishDelete_table_sub (env : Env) (table : SessionTable) (method : String)
    (sessionId : Option String) (t : SessToken) (c : Bool) (res : ResState) (evs : List Event)
    (k : String) (v : SessToken)
    (h : mapGet (finishDelete env table method sessionId t c res evs).table k = some v) :
    mapGet table k = some v := by
  unfold finishDelete at h
  split at h
  · split at h
    · rw [catchBlock_table, mapGet_mapDelete] at h
      split at h
      · exact absurd h (by simp)
      · exact h
    · simp only [mapGet_mapDelete] at h
      split at h
      · exact absurd h (by simp)
      · exact h
  · exact h

theorem finishDelete_table_keeps (env : Env) (table : SessionTable) (method : String)
    (sessionId : Option String) (t : SessToken) (c : Bool) (res : ResState) (evs : List Event)
    (k : String) (v : SessToken)
    (h : mapGet table k = some v) :
    mapGet (finishDelete env table method sessionId t c res evs).table k = some v ∨
    mapGet (finishDelete env table method sessionId t c res evs).table k = none := by
  unfold finishDelete
  split
  · split
    · rw [catchBlock_table, mapGet_mapDelete]
      split
      · exact Or.inr rfl
      · exact Or.inl h
    · simp only [mapGet_mapDelete]
      split
      · exact Or.inr rfl
      · exact Or.inl h
  · exact Or.inl h

theorem runSession_table_bound (env : Env) (table : SessionTable) (method : String)
    (sessionId : Option String) (t : SessToken) (c : Bool) (res : ResState) (evs : List Event)
    (k : String) (v : SessToken)
    (h : mapGet (runSession env table method sessionId t c res evs).table k = some v) :
    mapGet table k = some v ∨ (env.tsidAfter = some k ∧ k ≠ "") := by
  have step : mapGet (if truthy env.tsidAfter && !mapHas table (env.tsidAfter.getD "") then
      mapSet table (env.tsidAfter.getD "") t else table) k = some v →
      mapGet table k = some v ∨ (env.tsidAfter = some k ∧ k ≠ "") := by
    intro h1
    by_cases hcond : (truthy env.tsidAfter && !mapHas table (env.tsidAfter.getD "")) = true
    · rw [if_pos hcond, mapGet_mapSet] at h1
      obtain ⟨htr, -⟩ : truthy env.tsidAfter = true ∧
          !mapHas table (env.tsidAfter.getD "") = true := by simpa using hcond
      split at h1
      · rename_i heq
        have hsome := truthy_some_of_true htr
        exact Or.inr ⟨heq ▸ hsome.1, heq ▸ hsome.2⟩
      · exact Or.inl h1
    · rw [if_neg hcond] at h1
      exact Or.inl h1
  by_cases hf : env.forwardThrows = true
  · rw [show (runSession env table method sessionId t c res evs).table = table by
      simp [runSession, catchBlock, hf]] at h
    exact Or.inl h
  · by_cases hc2 : (c && !truthy env.tsidAfter) = true
    · by_cases hct : env.transportCloseThrows = true
      · simp only [runSession, catchBlock, hf, hc2, hct] at h
        exact step h
      · by_cases hcs : env.serverCloseThrows = true
        · simp only [runSession, catchBlock] at h
          simp only [if_neg (by simp [hf] : ¬ env.forwardThrows = true), if_pos hc2,
            if_neg (by simp [hct] : ¬ env.transportCloseThrows = true), if_pos hcs] at h
          exact step h
        · simp only [runSession] at h
          simp only [if_neg (by simp [hf] : ¬ env.forwardThrows = true), if_pos hc2,
            if_neg (by simp [hct] : ¬ env.transportCloseThrows = true),
            if_neg (by simp [hcs] : ¬ env.serverCloseThrows = true)] at h
          exact step (finishDelete_table_sub _ _ _ _ _ _ _ _ _ _ h)
    · simp only [runSession] at h
      simp only [if_neg (by simp [hf] : ¬ env.forwardThrows = true), if_neg hc2] at h
      exact step (finishDelete_table_sub _ _ _ _ _ _ _ _ _ _ h)

theorem runSession_no_overwrite (env : Env) (table : SessionTable) (method : String)
    (sessionId : Option String) (t : SessToken) (c : Bool) (res : ResState) (evs : List Event)
    (k : String) (v : SessToken)
    (h : mapGet table k = some v) :
    mapGet (runSession env table method sessionId t c res evs).table k = some v ∨
    mapGet (runSession env table method sessionId t c res evs).table k = none := by
  have step : mapGet (if truthy env.tsidAfter && !mapHas table (env.tsidAfter.getD "") then
      mapSet table (env.tsidAfter.getD "") t else table) k = some v := by
    by_cases hcond : (truthy env.tsidAfter && !mapHas table (env.tsidAfter.getD "")) = true
    · rw [if_pos hcond, mapGet_mapSet]
      obtain ⟨-, hnm⟩ : truthy env.tsidAfter = true ∧
          !mapHas table (env.tsidAfter.getD "") = true := by simpa using hcond
      split
      · rename_i heq
        rw [heq, mapHas, h] at hnm
        simp at hnm
      · exact h
    · rw [if_neg hcond]
      exact h
  by_cases hf : env.forwardThrows = true
  · rw [show (runSession env table method sessionId t c res evs).table = table by
      simp [runSession, catchBlock, hf]]
    exact Or.inl h
  · by_cases hc2 : (c && !truthy env.tsidAfter) = true
    · by_cases hct : env.transportCloseThrows = true
      · simp only [runSession, catchBlock]
        simp only [if_neg (by simp [hf] : ¬ env.forwardThrows = true), if_pos hc2, if_pos hct]
        exact Or.inl step
      · by_cases hcs : env.serverCloseThrows = true
        · simp only [runSession, catchBlock]
          simp only [if_neg (by simp [hf] : ¬ env.forwardThrows = true), if_pos hc2,
            if_neg (by simp [hct] : ¬ env.transportCloseThrows = true), if_pos hcs]
          exact Or.inl step
        · simp only [runSession]
          simp only [if_neg (by simp [hf] : ¬ env.forwardThrows = true), if_pos hc2,
            if_neg (by simp [hct] : ¬ env.transportCloseThrows = true),
            if_neg (by simp [hcs] : ¬ env.serverCloseThrows = true)]
          exact finishDelete_table_keeps _ _ _ _ _ _ _ _ _ _ step
    · simp only [runSession]
      simp only [if_neg (by simp [hf] : ¬ env.forwardThrows = true), if_neg hc2]
      exact finishDelete_table_keeps _ _ _ _ _ _ _ _ _ _ step

theorem handleHttpRequest_table_bound (env : Env) (table : SessionTable) (req : HttpRequest)
    (res : ResState) (k : String) (v : SessToken)
    (h : mapGet (handleHttpRequest env table req res).table k = some v) :
    mapGet table k = some v ∨ (env.tsidAfter = some k ∧ k ≠ "") := by
  by_cases hp : pathOf req.url = "/mcp"
  · by_cases htr : truthy (getSessionIdHeader req.sessionHeader) = true
    · rcases hlook : mapGet table ((getSessionIdHeader req.sessionHeader).getD "") with _ | t
      · simp only [handleHttpRequest] at h
        simp only [hp, htr, hlook] at h
        simp at h
        exact Or.inl h
      · simp only [handleHttpRequest] at h
        simp only [hp, htr, hlook] at h
        simp only [if_neg (by simp : ¬ "/mcp" ≠ "/mcp"), if_pos htr] at h
        exact runSession_table_bound _ _ _ _ _ _ _ _ _ _ h
    · by_cases hpost : (jsToUpper (req.method.getD "GET") == "POST") = true
      · simp only [handleHttpRequest] at h
        simp only [hp, if_neg (by simp : ¬ "/mcp" ≠ "/mcp"),
          if_neg (by simp [htr] : ¬ truthy (getSessionIdHeader req.sessionHeader) = true),
          if_pos hpost] at h
        exact runSession_table_bound _ _ _ _ _ _ _ _ _ _ h
      · simp only [handleHttpRequest] at h
        simp only [hp, if_neg (by simp : ¬ "/mcp" ≠ "/mcp"),
          if_neg (by simp [htr] : ¬ truthy (getSessionIdHeader req.sessionHeader) = true),
          if_neg hpost] at h
        exact Or.inl h
  · simp only [handleHttpRequest] at h
    simp only [if_pos hp] at h
    exact Or.inl h

theorem handleHttpRequest_no_overwrite (env : Env) (table : SessionTable) (req : HttpRequest)
    (res : ResState) (k : String) (v : SessToken)
    (h : mapGet table k = some v) :
    mapGet (handleHttpRequest env table req res).table k = some v ∨
    mapGet (handleHttpRequest env table req res).table k = none := by
  by_cases hp : pathOf req.url = "/mcp"
  · by_cases htr : truthy (getSessionIdHeader req.sessionHeader) = true
    · rcases hlook : mapGet table ((getSessionIdHeader req.sessionHeader).getD "") with _ | t
      · simp only [handleHttpRequest]
        simp only [hp, htr, hlook]
        simp
        exact Or.inl h
      · simp only [handleHttpRequest]
        simp only [hp, htr, hlook]
        simp only [if_neg (by simp : ¬ "/mcp" ≠ "/mcp"), if_pos htr]
        exact runSession_no_overwrite _ _ _ _ _ _ _ _ _ _ h
    · by_cases hpost : (jsToUpper (req.method.getD "GET") == "POST") = true
      · simp only [handleHttpRequest]
        simp only [hp, if_neg (by simp : ¬ "/mcp" ≠ "/mcp"),
          if_neg (by simp [htr] : ¬ truthy (getSessionIdHeader req.sessionHeader) = true),
          if_pos hpost]
        exact runSession_no_overwrite _ _ _ _ _ _ _ _ _ _ h
      · simp only [handleHttpRequest]
        simp only [hp, if_neg (by simp : ¬ "/mcp" ≠ "/mcp"),
          if_neg (by simp [htr] : ¬ truthy (getSessionIdHeader req.sessionHeader) = true),
          if_neg hpost]
        exact Or.inl h
  · simp only [handleHttpRequest]
    simp only [if_pos hp]
    exact Or.inl h

/-- C7: a fault while forwarding to a pre-existing registered session leaves
the whole table — in particular that session's entry — unchanged; no session
is constructed and no teardown runs (the only event is the failed forward),
and the fault surfaces solely as the attempted internal-error response
(HTTP 500, code -32603) on this one request. -/
theorem fault_on_registered_session_frame (env : Env) (table : SessionTable) (req : HttpRequest)
    (res : ResState) (sid : String) (t : SessToken)
    (hp : pathOf req.url = "/mcp")
    (hd : getSessionIdHeader req.sessionHeader = some sid)
    (hs : sid ≠ "")
    (hfound : mapGet table sid = some t)
    (hf : env.forwardThrows = true) :
    (handleHttpRequest env table req res).table = table ∧
    mapGet (handleHttpRequest env table req res).table sid = some t ∧
    (handleHttpRequest env table req res).events = [Event.forwardErr t] ∧
    (handleHttpRequest env table req res).res =
      writeJsonError (if env.headersSentOnThrow then markStreamed res t else res)
        500 (-32603) "Internal server error" := by
  have hw : handleHttpRequest env table req res =
      { table := table, events := [Event.forwardErr t],
        res := writeJsonError (if env.headersSentOnThrow then markStreamed res t else res)
          500 (-32603) "Internal server error" } := by
    simp [handleHttpRequest, runSession, catchBlock, hp, hd, truthy, hs, hfound, hf]
  rw [hw]
  exact ⟨rfl, hfound, rfl, rfl⟩

/-- Witness for C7: a fault forwarding to registered session "abc". -/
theorem fault_on_registered_session_frame_witness :
    pathOf (some "/mcp") = "/mcp" ∧
    getSessionIdHeader (HeaderValue.one "abc") = some "abc" ∧
    mapGet [("abc", 3)] "abc" = some 3 ∧
    (handleHttpRequest ⟨7, true, false, none, false, false⟩ [("abc", 3)]
        ⟨some "/mcp", some "POST", HeaderValue.one "abc"⟩ ⟨false, 200, none, []⟩).table =
      [("abc", 3)] ∧
    (handleHttpRequest ⟨7, true, false, none, false, false⟩ [("abc", 3)]
        ⟨some "/mcp", some "POST", HeaderValue.one "abc"⟩ ⟨false, 200, none, []⟩).events =
      [Event.forwardErr 3] :=
  ⟨by decide, by decide, by decide,
   (fault_on_registered_session_frame ⟨7, true, false, none, false, false⟩ [("abc", 3)]
      ⟨some "/mcp", some "POST", HeaderValue.one "abc"⟩ ⟨false, 200, none, []⟩ "abc" 3
      (by decide) (by decide) (by decide) (by decide) (by decide)).1,
   (fault_on_registered_session_frame ⟨7, true, false, none, false, false⟩ [("abc", 3)]
      ⟨some "/mcp", some "POST", HeaderValue.one "abc"⟩ ⟨false, 200, none, []⟩ "abc" 3
      (by decide) (by decide) (by decide) (by decide) (by decide)).2.2.1⟩

/-- C1: a DELETE request for a registered session whose forwarding and
teardown succeed removes the entry from the table after the response is
written, and releases the session's handler and (through the handler it is
connected to) its transport; an immediately following request carrying the
same id is answered with the session-not-found error and leaves the table
unchanged. -/
theorem terminate_removes_session (env env2 : Env) (table : SessionTable)
    (req req2 : HttpRequest) (res res2 : ResState) (sid : String) (t : SessToken)
    (hp : pathOf req.url = "/mcp")
    (hm : req.method = some "DELETE")
    (hd : getSessionIdHeader req.sessionHeader = some sid)
    (hs : sid ≠ "")
    (hfound : mapGet table sid = some t)
    (hf : env.forwardThrows = false)
    (hts : env.tsidAfter = some sid)
    (hc : env.serverCloseThrows = false)
    (hp2 : pathOf req2.url = "/mcp")
    (hd2 : getSessionIdHeader req2.sessionHeader = some sid) :
    (handleHttpRequest env table req res).table = mapDelete table sid ∧
    mapGet (handleHttpRequest env table req res).table sid = none ∧
    (handleHttpRequest env table req res).res.headersSent = true ∧
    handlerReleased t (handleHttpRequest env table req res).events ∧
    transportReleased t (handleHttpRequest env table req res).events ∧
    handleHttpRequest env2 (handleHttpRequest env table req res).table req2 res2 =
      { table := mapDelete table sid, events := [],
        res := writeJsonError res2 404 (-32001) "Session not found" } := by
  have hmu : jsToUpper (req.method.getD "GET") = "DELETE" := by rw [hm]; decide
  have hhas : mapHas table sid = true := by rw [mapHas, hfound]; rfl
  have hw : handleHttpRequest env table req res =
      { table := mapDelete table sid,
        events := [Event.forwardOk t, Event.serverClose t true],
        res := markStreamed res t } := by
    simp [handleHttpRequest, runSession, finishDelete, hp, hmu, hd, truthy, hs, hfound, hf,
      hts, hc, hhas]
  rw [hw]
  refine ⟨rfl, mapGet_mapDelete_self table sid, rfl, ?_, ?_, ?_⟩
  · simp [handlerReleased]
  · simp [transportReleased]
  · simp [handleHttpRequest, hp2, hd2, truthy, hs, mapGet_mapDelete_self]

/-- Witness for C1: terminating session "abc" held by token 3, then probing
the same id again. -/
theorem terminate_removes_session_witness :
    mapGet [("abc", 3)] "abc" = some 3 ∧
    (handleHttpRequest ⟨9, false, false, some "abc", false, false⟩ [("abc", 3)]
        ⟨some "/mcp", some "DELETE", HeaderValue.one "abc"⟩ ⟨false, 200, none, []⟩).table =
      mapDelete [("abc", 3)] "abc" ∧
    mapGet (handleHttpRequest ⟨9, false, false, some "abc", false, false⟩ [("abc", 3)]
        ⟨some "/mcp", some "DELETE", HeaderValue.one "abc"⟩ ⟨false, 200, none, []⟩).table "abc" =
      none ∧
    handleHttpRequest ⟨9, false, false, none, false, false⟩
        (handleHttpRequest ⟨9, false, false, some "abc", false, false⟩ [("abc", 3)]
          ⟨some "/mcp", some "DELETE", HeaderValue.one "abc"⟩ ⟨false, 200, none, []⟩).table
        ⟨some "/mcp", some "GET", HeaderValue.one "abc"⟩ ⟨false, 200, none, []⟩ =
      { table := mapDelete [("abc", 3)] "abc", events := [],
        res := writeJsonError ⟨false, 200, none, []⟩ 404 (-32001) "Session not found" } := by
  have h := terminate_removes_session ⟨9, false, false, some "abc", false, false⟩
    ⟨9, false, false, none, false, false⟩ [("abc", 3)]
    ⟨some "/mcp", some "DELETE", HeaderValue.one "abc"⟩
    ⟨some "/mcp", some "GET", HeaderValue.one "abc"⟩
    ⟨false, 200, none, []⟩ ⟨false, 200, none, []⟩ "abc" 3
    (by decide) (by decide) (by decide) (by decide) (by decide) (by decide) (by decide)
    (by decide) (by decide) (by decide)
  exact ⟨by decide, h.1, h.2.1, h.2.2.2.2.2⟩

/-- C2: a POST with no session id constructs a fresh session; when the
handshake yields no identifier the session is never inserted (the table is
returned unchanged) and its transport and server are closed immediately
after the response is written; moreover, any entry of any resulting table
either pre-existed or is registered under precisely the (non-empty)
identifier the session's transport produced. -/
theorem handshake_without_id_not_registered (env : Env) (table : SessionTable)
    (req : HttpRequest) (res : ResState)
    (hp : pathOf req.url = "/mcp")
    (hh : truthy (getSessionIdHeader req.sessionHeader) = false)
    (hm : jsToUpper (req.method.getD "GET") = "POST")
    (hf : env.forwardThrows = false)
    (hts : truthy env.tsidAfter = false)
    (htc : env.transportCloseThrows = false)
    (hsc : env.serverCloseThrows = false) :
    handleHttpRequest env table req res =
      { table := table,
        events := [Event.createSession env.newToken, Event.forwardOk env.newToken,
                   Event.transportClose env.newToken true, Event.serverClose env.newToken true],
        res := markStreamed res env.newToken } ∧
    (∀ env2 table2 req2 res2 (k : String) (v : SessToken),
      mapGet (handleHttpRequest env2 table2 req2 res2).table k = some v →
      mapGet table2 k = some v ∨ (env2.tsidAfter = some k ∧ k ≠ "")) := by
  refine ⟨?_, fun env2 table2 req2 res2 k v h =>
    handleHttpRequest_table_bound env2 table2 req2 res2 k v h⟩
  simp [handleHttpRequest, runSession, finishDelete, hp, hh, hm, hf, hts, htc, hsc]

/-- Witness for C2: a one-shot POST whose handshake yields no identifier. -/
theorem handshake_without_id_not_registered_witness :
    truthy (getSessionIdHeader HeaderValue.missing) = false ∧
    truthy (none : Option String) = false ∧
    handleHttpRequest ⟨7, false, false, none, false, false⟩ [("abc", 3)]
        ⟨some "/mcp", some "POST", HeaderValue.missing⟩ ⟨false, 200, none, []⟩ =
      { table := [("abc", 3)],
        events := [Event.createSession 7, Event.forwardOk 7,
                   Event.transportClose 7 true, Event.serverClose 7 true],
        res := markStreamed ⟨false, 200, none, []⟩ 7 } :=
  ⟨by decide, by decide,
   (handshake_without_id_not_registered ⟨7, false, false, none, false, false⟩ [("abc", 3)]
      ⟨some "/mcp", some "POST", HeaderValue.missing⟩ ⟨false, 200, none, []⟩
      (by decide) (by decide) (by decide) (by decide) (by decide) (by decide) (by decide)).1⟩

/-- Counterexample to C3 as stated: a POST with no session id whose forward
throws after the response started streaming. The constructed session (token
7) is torn down and never registered, but no internal-error response reaches
the caller — `writeJsonError` is a no-op because headers were already sent,
so the response holds only the partial stream, no JSON-RPC error object. -/
theorem forward_fault_streaming_no_error_body :
    handleHttpRequest ⟨7, true, true, none, false, false⟩ []
        ⟨some "/mcp", some "POST", HeaderValue.missing⟩ ⟨false, 200, none, []⟩ =
      { table := [],
        events := [Event.createSession 7, Event.forwardErr 7,
                   Event.transportClose 7 true, Event.serverClose 7 true],
        res := ⟨true, 200, none, [Chunk.stream 7]⟩ } := by decide

/-- C3 amended: when forwarding a POST-without-session-id request faults, the
newly constructed session is torn down (transport and server close calls
issued, rejections swallowed) and never registered (table unchanged), and
the terminal internal-error response (500, code -32603) is written to the
caller unless the response had already started streaming when the fault
surfaced, in which case nothing further is written. -/
theorem forward_fault_new_session_teardown (env : Env) (table : SessionTable)
    (req : HttpRequest) (res : ResState)
    (hp : pathOf req.url = "/mcp")
    (hh : truthy (getSessionIdHeader req.sessionHeader) = false)
    (hm : jsToUpper (req.method.getD "GET") = "POST")
    (hf : env.forwardThrows = true) :
    handleHttpRequest env table req res =
      { table := table,
        events := [Event.createSession env.newToken, Event.forwardErr env.newToken,
                   Event.transportClose env.newToken (!env.transportCloseThrows),
                   Event.serverClose env.newToken (!env.serverCloseThrows)],
        res := writeJsonError
          (if env.headersSentOnThrow then markStreamed res env.newToken else res)
          500 (-32603) "Internal server error" } ∧
    (env.headersSentOnThrow = false → res.headersSent = false →
      (handleHttpRequest env table req res).res.chunks =
        res.chunks ++ [Chunk.json ⟨"2.0", -32603, "Internal server error", none⟩]) := by
  have hw : handleHttpRequest env table req res =
      { table := table,
        events := [Event.createSession env.newToken, Event.forwardErr env.newToken,
                   Event.transportClose env.newToken (!env.transportCloseThrows),
                   Event.serverClose env.newToken (!env.serverCloseThrows)],
        res := writeJsonError
          (if env.headersSentOnThrow then markStreamed res env.newToken else res)
          500 (-32603) "Internal server error" } := by
    simp [handleHttpRequest, runSession, catchBlock, hp, hh, hm, hf]
  refine ⟨hw, fun h1 h2 => ?_⟩
  rw [hw]
  simp [writeJsonError, h1, h2]

/-- Witness for C3 amended: the fault arrives before any streaming, so the
error body is written. -/
theorem forward_fault_new_session_teardown_witness :
    truthy (getSessionIdHeader HeaderValue.missing) = false ∧
    handleHttpRequest ⟨7, true, false, none, false, false⟩ []
        ⟨some "/mcp", some "POST", HeaderValue.missing⟩ ⟨false, 200, none, []⟩ =
      { table := [],
        events := [Event.createSession 7, Event.forwardErr 7,
                   Event.transportClose 7 true, Event.serverClose 7 true],
        res := writeJsonError ⟨false, 200, none, []⟩ 500 (-32603) "Internal server error" } ∧
    (handleHttpRequest ⟨7, true, false, none, false, false⟩ []
        ⟨some "/mcp", some "POST", HeaderValue.missing⟩ ⟨false, 200, none, []⟩).res.chunks =
      [Chunk.json ⟨"2.0", -32603, "Internal server error", none⟩] := by
  have h := forward_fault_new_session_teardown ⟨7, true, false, none, false, false⟩ []
    ⟨some "/mcp", some "POST", HeaderValue.missing⟩ ⟨false, 200, none, []⟩
    (by decide) (by decide) (by decide) (by decide)
  exact ⟨by decide, by simpa using h.1, by simpa using h.2 rfl rfl⟩

/-- Counterexample to C4 as stated: a handshake whose transport produces the
identifier "s1" that is already registered (to token 5). The losing request's
constructed session (token 7) is not inserted — but it is not discarded
either: the events show no close call on token 7, so the loser is abandoned,
not closed as the claim demands. -/
theorem insert_loser_not_closed :
    handleHttpRequest ⟨7, false, false, some "s1", false, false⟩ [("s1", 5)]
        ⟨some "/mcp", some "POST", HeaderValue.missing⟩ ⟨false, 200, none, []⟩ =
      { table := [("s1", 5)],
        events := [Event.createSession 7, Event.forwardOk 7],
        res := ⟨true, 200, none, [Chunk.stream 7]⟩ } := by decide

/-- C4 amended: insertion never overwrites an existing entry for the same id
(an existing entry survives unchanged unless removed); when an insert loses
because the id already exists, the losing request's constructed session is
not registered (the table is unchanged) but it is not closed either — no
close event is issued for it, the session object is abandoned to garbage
collection. -/
theorem insert_no_overwrite_loser_abandoned (env : Env) (table : SessionTable)
    (req : HttpRequest) (res : ResState) (k : String)
    (hp : pathOf req.url = "/mcp")
    (hh : truthy (getSessionIdHeader req.sessionHeader) = false)
    (hm : jsToUpper (req.method.getD "GET") = "POST")
    (hf : env.forwardThrows = false)
    (hts : env.tsidAfter = some k)
    (hk : k ≠ "")
    (hhas : mapHas table k = true) :
    handleHttpRequest env table req res =
      { table := table,
        events := [Event.createSession env.newToken, Event.forwardOk env.newToken],
        res := markStreamed res env.newToken } ∧
    (∀ env2 table2 req2 res2 (k2 : String) (v : SessToken), mapGet table2 k2 = some v →
      mapGet (handleHttpRequest env2 table2 req2 res2).table k2 = some v ∨
      mapGet (handleHttpRequest env2 table2 req2 res2).table k2 = none) := by
  have htrk : truthy (some k) = true := by simp [truthy, hk]
  refine ⟨?_, fun env2 table2 req2 res2 k2 v h =>
    handleHttpRequest_no_overwrite env2 table2 req2 res2 k2 v h⟩
  simp [handleHttpRequest, runSession, finishDelete, hp, hh, hm, hf, hts, htrk, hhas]

/-- Witness for C4 amended at the counterexample's input. -/
theorem insert_no_overwrite_loser_abandoned_witness :
    mapHas [("s1", 5)] "s1" = true ∧
    handleHttpRequest ⟨7, false, false, some "s1", false, false⟩ [("s1", 5)]
        ⟨some "/mcp", some "POST", HeaderValue.missing⟩ ⟨false, 200, none, []⟩ =
      { table := [("s1", 5)],
        events := [Event.createSession 7, Event.forwardOk 7],
        res := markStreamed ⟨false, 200, none, []⟩ 7 } :=
  ⟨by decide,
   (insert_no_overwrite_loser_abandoned ⟨7, false, false, some "s1", false, false⟩ [("s1", 5)]
      ⟨some "/mcp", some "POST", HeaderValue.missing⟩ ⟨false, 200, none, []⟩ "s1"
      (by decide) (by decide) (by decide) (by decide) (by decide) (by decide) (by decide)).1⟩

/-- The events the shutdown loop issues for the entries of a table, in
order: one transport close and one server close per entry. -/
def drainEvents (tFail sFail : String → Bool) : SessionTable → List Event
  | [] => []
  | (sid, t) :: rest =>
    Event.transportClose t (!tFail sid) :: Event.serverClose t (!sFail sid) ::
      drainEvents tFail sFail rest

theorem shutdownLoop_eq_of_nodup (tFail sFail : String → Bool) :
    ∀ m : SessionTable, (m.map Prod.fst).Nodup →
      shutdownLoop tFail sFail m = ([], drainEvents tFail sFail m) := by
  intro m hk
  induction m with
  | nil => simp [shutdownLoop, drainEvents]
  | cons p rest ih =>
    obtain ⟨sid, t⟩ := p
    simp only [List.map_cons, List.nodup_cons] at hk
    have hdel : mapDelete rest sid = rest := mapDelete_of_not_mem_keys rest sid hk.1
    simp only [shutdownLoop]
    rw [hdel, ih hk.2]
    rfl

theorem countP_drainEvents_transport (tFail sFail : String → Bool) (m : SessionTable)
    (t : SessToken) :
    (drainEvents tFail sFail m).countP (isTransportCloseOf t) =
      m.countP (fun q => q.2 == t) := by
  induction m with
  | nil => rfl
  | cons p rest ih =>
    obtain ⟨sid, u⟩ := p
    simp only [drainEvents, List.countP_cons, isTransportCloseOf, isServerCloseOf, ih]
    by_cases h : u = t <;> simp [h, isTransportCloseOf, isServerCloseOf]

theorem countP_drainEvents_server (tFail sFail : String → Bool) (m : SessionTable)
    (t : SessToken) :
    (drainEvents tFail sFail m).countP (isServerCloseOf t) =
      m.countP (fun q => q.2 == t) := by
  induction m with
  | nil => rfl
  | cons p rest ih =>
    obtain ⟨sid, u⟩ := p
    simp only [drainEvents, List.countP_cons, ih]
    by_cases h : u = t <;> simp [h, isTransportCloseOf, isServerCloseOf]

theorem countP_snd_eq_one_of_nodup :
    ∀ (m : SessionTable), (m.map Prod.snd).Nodup → ∀ p ∈ m,
      m.countP (fun q => q.2 == p.2) = 1 := by
  intro m hn p hp
  induction m with
  | nil => simp at hp
  | cons q rest ih =>
    simp only [List.map_cons, List.nodup_cons] at hn
    rcases List.mem_cons.mp hp with he | hm
    · subst he
      have hz : rest.countP (fun r => r.2 == p.2) = 0 := by
        rw [List.countP_eq_zero]
        intro r hr hbeq
        apply hn.1
        have hr2 : r.2 = p.2 := by simpa using hbeq
        rw [← hr2]
        exact List.mem_map_of_mem Prod.snd hr
      simp [List.countP_cons, hz]
    · have hne : ¬ q.2 = p.2 := by
        intro he2
        apply hn.1
        rw [he2]
        exact List.mem_map_of_mem Prod.snd hm
      simp [List.countP_cons, ih hn.2 hm, hne]

/-- C8: for every session table with pairwise-distinct ids and sessions, the
shutdown drain loop removes every entry (zero remain) and issues exactly one
transport close and exactly one server close per session — for every choice
of which close calls fail, since failures are swallowed and so cannot stop
the drain of the remaining sessions. -/
theorem shutdown_drains_all (tFail sFail : String → Bool) (m : SessionTable)
    (hk : (m.map Prod.fst).Nodup) (ht : (m.map Prod.snd).Nodup) :
    (shutdownLoop tFail sFail m).1 = [] ∧
    ∀ p ∈ m, (shutdownLoop tFail sFail m).2.countP (isTransportCloseOf p.2) = 1 ∧
             (shutdownLoop tFail sFail m).2.countP (isServerCloseOf p.2) = 1 := by
  rw [shutdownLoop_eq_of_nodup tFail sFail m hk]
  refine ⟨rfl, fun p hp => ?_⟩
  rw [countP_drainEvents_transport, countP_drainEvents_server]
  exact ⟨countP_snd_eq_one_of_nodup m ht p hp, countP_snd_eq_one_of_nodup m ht p hp⟩

/-- Witness for C8: two sessions, the first one's transport close failing;
both are drained and each closed exactly once. -/
theorem shutdown_drains_all_witness :
    (([("a", 1), ("b", 2)] : SessionTable).map Prod.fst).Nodup ∧
    (([("a", 1), ("b", 2)] : SessionTable).map Prod.snd).Nodup ∧
    (shutdownLoop (fun s => s == "a") (fun _ => false) [("a", 1), ("b", 2)]).1 = [] ∧
    (shutdownLoop (fun s => s == "a") (fun _ => false) [("a", 1), ("b", 2)]).2.countP
      (isTransportCloseOf 1) = 1 ∧
    (shutdownLoop (fun s => s == "a") (fun _ => false) [("a", 1), ("b", 2)]).2.countP
      (isServerCloseOf 1) = 1 := by
  have h := shutdown_drains_all (fun s => s == "a") (fun _ => false) [("a", 1), ("b", 2)]
    (by decide) (by decide)
  exact ⟨by decide, by decide, h.1, (h.2 ("a", 1) (by decide)).1, (h.2 ("a", 1) (by decide)).2⟩
